import Mathlib

/-!
Shallow embedding of the change-detection and state-tracking core of the
foroactivo-discord-monitor repository (src/state_manager.py, src/monitor.py).

The Python `StateManager.state` dictionary (`Dict[str, Dict]`) maps a monitor
ID to either a forum cursor or a thread cursor; we model it as an association
list from `String` to a tagged `Cursor`. Python dict assignment `state[k] = v`
replaces in place (or appends for a fresh key), modelled by `setEntry`.
Timestamps (`datetime.utcnow().isoformat() + "Z"`) are passed in as an
explicit `now : String` argument.
-/

/-- A thread record as scraped by the forum client (`ThreadRecord` in the
spec; a dict with these keys in `foroactivo_client.py`). -/
structure ThreadRecord where
  id : String
  title : String
  author : String
  url : String
  last_post_date : String
deriving DecidableEq, Repr

/-- A post record as scraped by the forum client. -/
structure PostRecord where
  id : String
  author : String
  content : String
  timestamp : String
  url : String
deriving DecidableEq, Repr

/-- The record stored by `StateManager.update_forum_state`. -/
structure ForumCursor where
  seen_thread_ids : List String
  last_checked_at : String
  total_threads : Nat
deriving DecidableEq, Repr

/-- The record stored by `StateManager.update_thread_state`. -/
structure ThreadCursor where
  last_post_id : String
  last_checked_at : String
  total_posts_seen : Nat
deriving DecidableEq, Repr

/-- A cursor entry of the state mapping: either shape of per-monitor record. -/
inductive Cursor where
  | forum (c : ForumCursor)
  | thread (c : ThreadCursor)
deriving DecidableEq, Repr

/-- The in-memory state mapping `StateManager.state`, as an association list
with the insertion-order semantics of a Python dict. -/
abbrev StateMap := List (String × Cursor)

/-- `state.get(key)`: first (unique) entry for `key`. -/
def lookupEntry : StateMap → String → Option Cursor
  | [], _ => none
  | (k, v) :: rest, key => if k = key then some v else lookupEntry rest key

/-- `state[key] = v`: replace the entry for `key` in place, or append it. -/
def setEntry : StateMap → String → Cursor → StateMap
  | [], key, v => [(key, v)]
  | (k, w) :: rest, key, v =>
      if k = key then (key, v) :: rest else (k, w) :: setEntry rest key v

/-- `StateManager.get_last_post_id`: `state.get(thread_id, {}).get("last_post_id")`.
A forum cursor has no `last_post_id` key, so the lookup yields `none` there. -/
def get_last_post_id (st : StateMap) (thread_id : String) : Option String :=
  match lookupEntry st thread_id with
  | some (Cursor.thread tc) => some tc.last_post_id
  | _ => none

/-- The seen-thread-ID collection read by `get_new_threads`:
`set(state.get(forum_id, {}).get("seen_thread_ids", []))`. A missing entry or
a thread-shaped entry yields the empty collection. -/
def seenThreadIds (st : StateMap) (forum_id : String) : List String :=
  match lookupEntry st forum_id with
  | some (Cursor.forum fc) => fc.seen_thread_ids
  | _ => []

/-- `StateManager.get_new_threads`: early-return `[]` on an empty snapshot,
otherwise keep the threads whose `id` is not in the stored seen set. -/
def get_new_threads (st : StateMap) (forum_id : String)
    (all_threads : List ThreadRecord) : List ThreadRecord :=
  if all_threads.isEmpty then []
  else
    let seen := seenThreadIds st forum_id
    all_threads.filter (fun t => decide (t.id ∉ seen))

/-- `StateManager.update_forum_state`: wholesale replacement of the forum
cursor with the fetched thread IDs, a fresh timestamp and the count. -/
def update_forum_state (st : StateMap) (forum_id : String)
    (thread_ids : List String) (now : String) : StateMap :=
  setEntry st forum_id (Cursor.forum ⟨thread_ids, now, thread_ids.length⟩)

/-- `StateManager.update_thread_state`: wholesale replacement of the thread
cursor with the given last post ID, a fresh timestamp and the post count. -/
def update_thread_state (st : StateMap) (thread_id : String)
    (last_post_id : String) (total_posts : Nat) (now : String) : StateMap :=
  setEntry st thread_id (Cursor.thread ⟨last_post_id, now, total_posts⟩)

/-- The scanning loop of `get_new_posts` (`for i, post in enumerate(...)`
with `break`): index of the first post whose `id` matches, `none` standing
for the Python sentinel `-1`. -/
def findLastPostIdx (lpid : String) : List PostRecord → Option Nat
  | [] => none
  | p :: rest =>
      if p.id = lpid then some 0
      else (findLastPostIdx lpid rest).map (fun n => n + 1)

/-- `StateManager.get_new_posts`, paired with whether the
"last post ID not found" warning branch was taken. -/
def get_new_postsW (st : StateMap) (thread_id : String)
    (all_posts : List PostRecord) : List PostRecord × Bool :=
  if all_posts.isEmpty then ([], false)
  else
    match get_last_post_id st thread_id with
    | none => (all_posts.getLast?.toList, false)
    | some lpid =>
        match findLastPostIdx lpid all_posts with
        | none => (all_posts.getLast?.toList, true)
        | some k => (all_posts.drop (k + 1), false)

/-- The return value of `StateManager.get_new_posts`. -/
def get_new_posts (st : StateMap) (thread_id : String)
    (all_posts : List PostRecord) : List PostRecord :=
  (get_new_postsW st thread_id all_posts).1

/-- C1: `get_new_threads` returns exactly the threads of `all_threads` whose
id is not in the stored seen set for `forum_id` (empty set when no forum
cursor is stored), preserving the input order; when the stored set is empty
the result is the full input list. -/
theorem get_new_threads_filters_seen (st : StateMap) (forum_id : String)
    (all_threads : List ThreadRecord) :
    get_new_threads st forum_id all_threads
      = all_threads.filter (fun t => decide (t.id ∉ seenThreadIds st forum_id))
    ∧ (seenThreadIds st forum_id = [] →
        get_new_threads st forum_id all_threads = all_threads) := by
  constructor
  · unfold get_new_threads
    by_cases h : all_threads.isEmpty
    · rw [if_pos h]
      rw [List.isEmpty_iff] at h
      simp [h]
    · rw [if_neg h]
  · intro h
    unfold get_new_threads
    by_cases he : all_threads.isEmpty
    · rw [if_pos he]
      rw [List.isEmpty_iff] at he
      exact he.symm
    · rw [if_neg he, h]
      simp

/-- Witness for C1 at a concrete input: empty store, one thread. -/
theorem get_new_threads_filters_seen_witness :
    get_new_threads [] "f1" [⟨"t1", "T", "au", "u", "d"⟩]
      = [⟨"t1", "T", "au", "u", "d"⟩] :=
  (get_new_threads_filters_seen [] "f1" [⟨"t1", "T", "au", "u", "d"⟩]).2 rfl

/-- The scanning loop finds exactly the first index whose post id matches. -/
theorem findLastPostIdx_eq_some (lpid : String) (ps : List PostRecord) (k : Nat)
    (hfound : ps[k]?.map PostRecord.id = some lpid)
    (hfirst : ∀ j, j < k → ps[j]?.map PostRecord.id ≠ some lpid) :
    findLastPostIdx lpid ps = some k := by
  induction ps generalizing k with
  | nil => simp at hfound
  | cons p rest ih =>
      cases k with
      | zero =>
          simp at hfound
          unfold findLastPostIdx
          rw [if_pos hfound]
      | succ k =>
          have hp : p.id ≠ lpid := by
            have h0 := hfirst 0 (Nat.succ_pos k)
            simpa using h0
          unfold findLastPostIdx
          rw [if_neg hp]
          have hrest : findLastPostIdx lpid rest = some k := by
            apply ih
            · simpa using hfound
            · intro j hj
              have hj1 := hfirst (j + 1) (Nat.succ_lt_succ hj)
              simpa using hj1
          rw [hrest]
          rfl

/-- The scanning loop reports the sentinel when no post id matches. -/
theorem findLastPostIdx_eq_none (lpid : String) (ps : List PostRecord)
    (habs : ∀ p ∈ ps, p.id ≠ lpid) :
    findLastPostIdx lpid ps = none := by
  induction ps with
  | nil => rfl
  | cons p rest ih =>
      unfold findLastPostIdx
      rw [if_neg (habs p (List.mem_cons_self p rest))]
      rw [ih (fun q hq => habs q (List.mem_cons_of_mem p hq))]
      rfl

/-- C2: with no stored `last_post_id` for `thread_id`, `get_new_posts`
returns the one-element list holding the last element of `all_posts` when it
is non-empty, and the empty list when `all_posts` is empty. -/
theorem get_new_posts_first_run (st : StateMap) (thread_id : String)
    (all_posts : List PostRecord)
    (h : get_last_post_id st thread_id = none) :
    get_new_posts st thread_id all_posts = all_posts.getLast?.toList
    ∧ (all_posts = [] → get_new_posts st thread_id all_posts = [])
    ∧ (∀ p, all_posts.getLast? = some p →
        get_new_posts st thread_id all_posts = [p]) := by
  have hmain : get_new_posts st thread_id all_posts = all_posts.getLast?.toList := by
    unfold get_new_posts get_new_postsW
    by_cases he : all_posts.isEmpty
    · rw [if_pos he]
      rw [List.isEmpty_iff] at he
      simp [he]
    · rw [if_neg he, h]
  refine ⟨hmain, fun hnil => by rw [hmain, hnil]; rfl, fun p hp => by rw [hmain, hp]; rfl⟩

/-- Witness for C2: empty store, a single post. -/
theorem get_new_posts_first_run_witness :
    get_new_posts [] "t1" [⟨"p1", "au", "c", "ts", "u"⟩] = [⟨"p1", "au", "c", "ts", "u"⟩] :=
  (get_new_posts_first_run [] "t1" [⟨"p1", "au", "c", "ts", "u"⟩] rfl).2.2 _ rfl

/-- C3: with a stored `last_post_id` found first at index `k` of `all_posts`,
`get_new_posts` returns exactly `all_posts[k+1:]`, and the empty list when
`k` is the last index. -/
theorem get_new_posts_after_found (st : StateMap) (thread_id lpid : String)
    (all_posts : List PostRecord) (k : Nat)
    (hl : get_last_post_id st thread_id = some lpid)
    (hfound : all_posts[k]?.map PostRecord.id = some lpid)
    (hfirst : ∀ j, j < k → all_posts[j]?.map PostRecord.id ≠ some lpid) :
    get_new_posts st thread_id all_posts = all_posts.drop (k + 1)
    ∧ (k + 1 = all_posts.length → get_new_posts st thread_id all_posts = []) := by
  have hne : all_posts.isEmpty = false := by
    cases hps : all_posts with
    | nil => rw [hps] at hfound; simp at hfound
    | cons a l => rfl
  have hmain : get_new_posts st thread_id all_posts = all_posts.drop (k + 1) := by
    simp only [get_new_posts, get_new_postsW, hne, hl,
      findLastPostIdx_eq_some lpid all_posts k hfound hfirst,
      Bool.false_eq_true, if_false]
  refine ⟨hmain, fun hlen => ?_⟩
  rw [hmain, hlen, List.drop_length]

/-- Witness for C3: stored `last_post_id = "p5"` found at index 2 of five
posts; the two later posts are returned. -/
theorem get_new_posts_after_found_witness :
    get_new_posts [("t1", Cursor.thread ⟨"p5", "ts", 5⟩)] "t1"
      [⟨"p3", "a", "c", "s", "u"⟩, ⟨"p4", "a", "c", "s", "u"⟩,
       ⟨"p5", "a", "c", "s", "u"⟩, ⟨"p6", "a", "c", "s", "u"⟩,
       ⟨"p7", "a", "c", "s", "u"⟩]
      = [⟨"p6", "a", "c", "s", "u"⟩, ⟨"p7", "a", "c", "s", "u"⟩] :=
  ((get_new_posts_after_found [("t1", Cursor.thread ⟨"p5", "ts", 5⟩)] "t1" "p5"
      [⟨"p3", "a", "c", "s", "u"⟩, ⟨"p4", "a", "c", "s", "u"⟩,
       ⟨"p5", "a", "c", "s", "u"⟩, ⟨"p6", "a", "c", "s", "u"⟩,
       ⟨"p7", "a", "c", "s", "u"⟩] 2 rfl (by decide) (by decide)).1).trans (by decide)

/-- C4: with a stored `last_post_id` matching no element of a non-empty
`all_posts`, `get_new_posts` returns the one-element list holding the last
element, and the warning branch is taken. -/
theorem get_new_posts_stale_rebaseline (st : StateMap) (thread_id lpid : String)
    (all_posts : List PostRecord)
    (hl : get_last_post_id st thread_id = some lpid)
    (hne : all_posts ≠ [])
    (habs : ∀ p ∈ all_posts, p.id ≠ lpid) :
    (∃ p, all_posts.getLast? = some p ∧ get_new_posts st thread_id all_posts = [p])
    ∧ (get_new_postsW st thread_id all_posts).2 = true := by
  have hie : all_posts.isEmpty = false := by
    cases all_posts with
    | nil => exact absurd rfl hne
    | cons a l => rfl
  have hw : get_new_postsW st thread_id all_posts = (all_posts.getLast?.toList, true) := by
    simp only [get_new_postsW, hie, hl, findLastPostIdx_eq_none lpid all_posts habs,
      Bool.false_eq_true, if_false]
  cases hgl : all_posts.getLast? with
  | none =>
      rw [List.getLast?_eq_none_iff] at hgl
      exact absurd hgl hne
  | some p =>
      refine ⟨⟨p, rfl, ?_⟩, ?_⟩
      · simp only [get_new_posts, hw, hgl, Option.toList_some]
      · rw [hw]

/-- Witness for C4: stored `last_post_id = "p2"` absent from `[p10, p11]`;
only `p11` is returned and the warning flag is set. -/
theorem get_new_posts_stale_rebaseline_witness :
    (∃ p, (([⟨"p10", "a", "c", "s", "u"⟩, ⟨"p11", "a", "c", "s", "u"⟩] : List PostRecord).getLast?
        = some p)
      ∧ get_new_posts [("t1", Cursor.thread ⟨"p2", "ts", 2⟩)] "t1"
          [⟨"p10", "a", "c", "s", "u"⟩, ⟨"p11", "a", "c", "s", "u"⟩] = [p])
    ∧ (get_new_postsW [("t1", Cursor.thread ⟨"p2", "ts", 2⟩)] "t1"
        [⟨"p10", "a", "c", "s", "u"⟩, ⟨"p11", "a", "c", "s", "u"⟩]).2 = true :=
  get_new_posts_stale_rebaseline [("t1", Cursor.thread ⟨"p2", "ts", 2⟩)] "t1" "p2"
    [⟨"p10", "a", "c", "s", "u"⟩, ⟨"p11", "a", "c", "s", "u"⟩]
    rfl (by decide) (by decide)

/-- Updating a key makes the lookup of that key yield the new value. -/
theorem lookup_setEntry_self (st : StateMap) (key : String) (v : Cursor) :
    lookupEntry (setEntry st key v) key = some v := by
  induction st with
  | nil => simp [setEntry, lookupEntry]
  | cons kv rest ih =>
      obtain ⟨k, w⟩ := kv
      by_cases h : k = key
      · simp [setEntry, lookupEntry, h]
      · simp [setEntry, lookupEntry, h, ih]

/-- Updating one key leaves the lookup of every other key unchanged. -/
theorem lookup_setEntry_ne (st : StateMap) (key k : String) (v : Cursor)
    (h : k ≠ key) :
    lookupEntry (setEntry st key v) k = lookupEntry st k := by
  have h' : ¬ key = k := fun hk => h hk.symm
  induction st with
  | nil => simp [setEntry, lookupEntry, h']
  | cons kv rest ih =>
      obtain ⟨k', w⟩ := kv
      by_cases hk : k' = key
      · subst hk
        simp [setEntry, lookupEntry, h']
      · simp [setEntry, lookupEntry, hk, ih]

/-- C5: `update_forum_state` replaces the forum cursor wholesale with exactly
the given IDs (no union with prior state), a second identical update yields
the same seen set, and storing membership-equal ID lists gives identical
`get_new_threads` results. -/
theorem update_forum_state_replaces (st : StateMap) (forum_id : String)
    (ids ids' : List String) (now now' now'' : String) (ts : List ThreadRecord)
    (h : ∀ x, x ∈ ids ↔ x ∈ ids') :
    seenThreadIds (update_forum_state st forum_id ids now) forum_id = ids
    ∧ seenThreadIds (update_forum_state
        (update_forum_state st forum_id ids now) forum_id ids now'') forum_id = ids
    ∧ get_new_threads (update_forum_state st forum_id ids now) forum_id ts
        = get_new_threads (update_forum_state st forum_id ids' now') forum_id ts := by
  refine ⟨?_, ?_, ?_⟩
  · simp [seenThreadIds, update_forum_state, lookup_setEntry_self]
  · simp [seenThreadIds, update_forum_state, lookup_setEntry_self]
  · unfold get_new_threads
    by_cases he : ts.isEmpty
    · rw [if_pos he, if_pos he]
    · rw [if_neg he, if_neg he]
      have h1 : seenThreadIds (update_forum_state st forum_id ids now) forum_id = ids := by
        simp [seenThreadIds, update_forum_state, lookup_setEntry_self]
      have h2 : seenThreadIds (update_forum_state st forum_id ids' now') forum_id = ids' := by
        simp [seenThreadIds, update_forum_state, lookup_setEntry_self]
      rw [h1, h2]
      exact List.filter_congr (fun t _ => decide_eq_decide.mpr (not_congr (h t.id)))

/-- Witness for C5: the two ID lists are each other reordered. -/
theorem update_forum_state_replaces_witness :
    seenThreadIds (update_forum_state [] "f1" ["a", "b"] "ts") "f1" = ["a", "b"] :=
  (update_forum_state_replaces [] "f1" ["a", "b"] ["b", "a"] "ts" "ts2" "ts3" []
    (fun x => by simp; tauto)).1

/-- C10: `update_thread_state` and `update_forum_state` write only the entry
of their own monitor ID; every other key's entry is unchanged. -/
theorem update_state_frame (st : StateMap) (m k : String)
    (lpid now now' : String) (total_posts : Nat) (ids : List String)
    (h : k ≠ m) :
    lookupEntry (update_thread_state st m lpid total_posts now) k = lookupEntry st k
    ∧ lookupEntry (update_forum_state st m ids now') k = lookupEntry st k :=
  ⟨lookup_setEntry_ne st m k _ h, lookup_setEntry_ne st m k _ h⟩

/-- Witness for C10: updating monitor `m1` leaves the entry of `f2` intact. -/
theorem update_state_frame_witness :
    lookupEntry (update_thread_state [("f2", Cursor.forum ⟨["x"], "t0", 1⟩)]
        "m1" "p1" 3 "t1") "f2"
      = lookupEntry [("f2", Cursor.forum ⟨["x"], "t0", 1⟩)] "f2" :=
  (update_state_frame [("f2", Cursor.forum ⟨["x"], "t0", 1⟩)] "m1" "f2"
    "p1" "t1" "t2" 3 ["a"] (by decide)).1

/-- The JSON documents `json.dump` writes and `json.load` reads (the shapes
the state file uses: strings, numbers, arrays, objects). -/
inductive Json where
  | str (s : String)
  | num (n : Nat)
  | arr (elems : List Json)
  | obj (fields : List (String × Json))

/-- Whether a parsed document is an object, i.e. loads as a Python dict. -/
def Json.isObj : Json → Bool
  | Json.obj _ => true
  | _ => false

/-- Field access on a parsed JSON object. -/
def jsonGet : List (String × Json) → String → Option Json
  | [], _ => none
  | (k, v) :: rest, key => if k = key then some v else jsonGet rest key

/-- The JSON shape `json.dump` gives one cursor record. -/
def encodeCursor : Cursor → Json
  | Cursor.forum fc => Json.obj
      [("seen_thread_ids", Json.arr (fc.seen_thread_ids.map Json.str)),
       ("last_checked_at", Json.str fc.last_checked_at),
       ("total_threads", Json.num fc.total_threads)]
  | Cursor.thread tc => Json.obj
      [("last_post_id", Json.str tc.last_post_id),
       ("last_checked_at", Json.str tc.last_checked_at),
       ("total_posts_seen", Json.num tc.total_posts_seen)]

/-- `StateManager.save_state`: the document `json.dump(self.state, ...)`
writes (whole-file rewrite of the full in-memory mapping). -/
def save_state (st : StateMap) : Json :=
  Json.obj (st.map (fun kv => (kv.1, encodeCursor kv.2)))

/-- Reading a JSON array of strings back into a string list. -/
def decodeStrs : List Json → Option (List String)
  | [] => some []
  | Json.str s :: rest =>
      match decodeStrs rest with
      | some ss => some (s :: ss)
      | none => none
  | _ :: _ => none

/-- Reading one cursor record back from its JSON object, keyed on which of
the two disjoint shapes its fields form. -/
def decodeCursor : Json → Option Cursor
  | Json.obj fields =>
      match jsonGet fields "seen_thread_ids" with
      | some (Json.arr jids) =>
          match decodeStrs jids, jsonGet fields "last_checked_at",
              jsonGet fields "total_threads" with
          | some ids, some (Json.str lc), some (Json.num tt) =>
              some (Cursor.forum ⟨ids, lc, tt⟩)
          | _, _, _ => none
      | some _ => none
      | none =>
          match jsonGet fields "last_post_id", jsonGet fields "last_checked_at",
              jsonGet fields "total_posts_seen" with
          | some (Json.str lp), some (Json.str lc), some (Json.num tp) =>
              some (Cursor.thread ⟨lp, lc, tp⟩)
          | _, _, _ => none
  | _ => none

/-- Reading every entry of the persisted object back into the mapping. -/
def decodeEntries : List (String × Json) → Option StateMap
  | [] => some []
  | (k, j) :: rest =>
      match decodeCursor j, decodeEntries rest with
      | some c, some s => some ((k, c) :: s)
      | _, _ => none

/-- Reading the whole persisted document back into the mapping. -/
def decodeState : Json → Option StateMap
  | Json.obj fields => decodeEntries fields
  | _ => none

theorem decodeStrs_map_str (ids : List String) :
    decodeStrs (ids.map Json.str) = some ids := by
  induction ids with
  | nil => rfl
  | cons a l ih => simp [decodeStrs, ih]

theorem decodeCursor_encodeCursor (c : Cursor) :
    decodeCursor (encodeCursor c) = some c := by
  cases c with
  | forum fc =>
      obtain ⟨ids, lc, tt⟩ := fc
      simp [encodeCursor, decodeCursor, jsonGet, decodeStrs_map_str]
  | thread tc =>
      obtain ⟨lp, lc, tp⟩ := tc
      simp [encodeCursor, decodeCursor, jsonGet]

theorem decodeEntries_encode (st : StateMap) :
    decodeEntries (st.map (fun kv => (kv.1, encodeCursor kv.2))) = some st := by
  induction st with
  | nil => rfl
  | cons kv rest ih =>
      obtain ⟨k, c⟩ := kv
      simp [decodeEntries, decodeCursor_encodeCursor, ih]

/-- C6: saving the in-memory cursor mapping and loading the persisted
document back yields the same mapping, field for field. -/
theorem save_load_roundtrip (st : StateMap)
    (_hkeys : (st.map Prod.fst).Nodup) :
    decodeState (save_state st) = some st := by
  simp [decodeState, save_state, decodeEntries_encode st]

/-- Witness for C6: a two-entry mapping with one cursor of each shape. -/
theorem save_load_roundtrip_witness :
    decodeState (save_state [("f1", Cursor.forum ⟨["a", "b"], "t0", 2⟩),
        ("t1", Cursor.thread ⟨"p9", "t1", 9⟩)])
      = some [("f1", Cursor.forum ⟨["a", "b"], "t0", 2⟩),
        ("t1", Cursor.thread ⟨"p9", "t1", 9⟩)] :=
  save_load_roundtrip [("f1", Cursor.forum ⟨["a", "b"], "t0", 2⟩),
    ("t1", Cursor.thread ⟨"p9", "t1", 9⟩)] (by decide)

/-- What `StateManager.load_state` finds on disk: no file, a file whose read
or parse raises, or a file parsing to some JSON document. -/
inductive FileState where
  | absent
  | malformed
  | parsed (doc : Json)

/-- `StateManager.load_state`: the value assigned to `self.state`, paired
with whether a load-failure message was printed. An absent file and a parse
failure both yield the empty mapping; a parsed file is taken as-is
(`self.state = json.load(f)`, whatever shape the document has). -/
def load_state : FileState → Json × Bool
  | FileState.absent => (Json.obj [], false)
  | FileState.malformed => (Json.obj [], true)
  | FileState.parsed doc => (doc, false)

/-- C7 counterexample: a state file holding the well-formed JSON document
`[]` parses fine, and `load_state` then yields that array itself, which is
not a mapping — the claim that every case returns a mapping fails here. -/
theorem load_state_nonmapping :
    (load_state (FileState.parsed (Json.arr []))).1 = Json.arr []
    ∧ (Json.arr []).isObj = false :=
  ⟨rfl, rfl⟩

/-- C7 (amended): `load_state` never fails the run — an absent file yields
the empty mapping, an unparseable file yields the empty mapping with a
warning printed, and a parseable file yields the parsed document as-is,
which is a mapping whenever the document is a JSON object (as every
`save_state` output is). -/
theorem load_state_never_fails :
    load_state FileState.absent = (Json.obj [], false)
    ∧ load_state FileState.malformed = (Json.obj [], true)
    ∧ (∀ doc, load_state (FileState.parsed doc) = (doc, false))
    ∧ (∀ st : StateMap, (load_state (FileState.parsed (save_state st))).1.isObj = true) :=
  ⟨rfl, rfl, fun _ => rfl, fun _ => rfl⟩

/-- `ForoactivoMonitor._process_thread_monitor`, with its effects made
explicit: configuration checks and login outcome as booleans, the fetched
posts as the client's return value, the notifier's success count as a
parameter (it returns a count and swallows request errors), and the fresh
timestamp as `now`. The result is the notification count returned and the
state mapping after the call. -/
def process_thread_monitor (st : StateMap) (thread_id : String)
    (has_thread_url has_webhook login_ok : Bool)
    (all_posts : List PostRecord) (notify_count : Nat) (now : String) :
    Nat × StateMap :=
  if has_thread_url then
    if has_webhook then
      if login_ok then
        if all_posts.isEmpty then (0, st)
        else
          match all_posts.getLast? with
          | none => (0, st)
          | some latest =>
              if (get_new_posts st thread_id all_posts).isEmpty then
                (0, update_thread_state st thread_id latest.id all_posts.length now)
              else
                (notify_count,
                  update_thread_state st thread_id latest.id all_posts.length now)
      else (0, st)
    else (0, st)
  else (0, st)

/-- C8: whenever the thread monitor's fetch succeeded (a non-empty post
list came back), the thread cursor is committed with the last fetched
post's ID and the total post count — for every notification outcome, and
also when zero new posts were detected. -/
theorem process_thread_monitor_commits (st : StateMap) (thread_id : String)
    (all_posts : List PostRecord) (notify_count : Nat) (now : String)
    (latest : PostRecord) (h : all_posts.getLast? = some latest) :
    lookupEntry (process_thread_monitor st thread_id true true true
        all_posts notify_count now).2 thread_id
      = some (Cursor.thread ⟨latest.id, now, all_posts.length⟩) := by
  have hne : all_posts.isEmpty = false := by
    cases all_posts with
    | nil => simp at h
    | cons a l => rfl
  unfold process_thread_monitor
  rw [if_pos rfl, if_pos rfl, if_pos rfl]
  rw [if_neg (by simp [hne]), h]
  show lookupEntry (if (get_new_posts st thread_id all_posts).isEmpty = true then
      ((0 : Nat), update_thread_state st thread_id latest.id all_posts.length now)
    else (notify_count,
      update_thread_state st thread_id latest.id all_posts.length now)).2 thread_id
    = some (Cursor.thread ⟨latest.id, now, all_posts.length⟩)
  rw [apply_ite Prod.snd, ite_self]
  exact lookup_setEntry_self st thread_id _

/-- Witness for C8: empty store, two posts, a notification count of zero
(every send failed); the cursor is still committed. -/
theorem process_thread_monitor_commits_witness :
    lookupEntry (process_thread_monitor [] "t1" true true true
        [⟨"p1", "a", "c", "s", "u"⟩, ⟨"p2", "a", "c", "s", "u"⟩] 0 "now").2 "t1"
      = some (Cursor.thread ⟨"p2", "now", 2⟩) :=
  process_thread_monitor_commits [] "t1"
    [⟨"p1", "a", "c", "s", "u"⟩, ⟨"p2", "a", "c", "s", "u"⟩] 0 "now"
    ⟨"p2", "a", "c", "s", "u"⟩ (by decide)

/-- The externally visible steps of one monitor's pipeline, in the order the
orchestrator performs them. -/
inductive Ev where
  | fetch
  | detect
  | notifyAttempt
  | commit
deriving DecidableEq, Repr

/-- The step order of `ForoactivoMonitor._process_forum_monitor` after a
successful login: fetch, detection, then `update_forum_state`
unconditionally, and only afterwards the notification batch (sent only when
new threads were detected). -/
def forum_monitor_trace (st : StateMap) (forum_id : String)
    (all_threads : List ThreadRecord) : List Ev :=
  if all_threads.isEmpty then [Ev.fetch]
  else if (get_new_threads st forum_id all_threads).isEmpty then
    [Ev.fetch, Ev.detect, Ev.commit]
  else [Ev.fetch, Ev.detect, Ev.commit, Ev.notifyAttempt]

/-- The step order of `ForoactivoMonitor._process_thread_monitor` after a
successful login: fetch, detection, then either a direct commit (no new
posts) or the notification batch followed by the commit. -/
def thread_monitor_trace (st : StateMap) (thread_id : String)
    (all_posts : List PostRecord) : List Ev :=
  if all_posts.isEmpty then [Ev.fetch]
  else if (get_new_posts st thread_id all_posts).isEmpty then
    [Ev.fetch, Ev.detect, Ev.commit]
  else [Ev.fetch, Ev.detect, Ev.notifyAttempt, Ev.commit]

/-- C9 counterexample: a forum monitor over an empty store and one fetched
thread detects one new thread, and its pipeline commits the cursor strictly
before the notification attempt — the claim that a commit never precedes the
notification attempt fails on the forum path. -/
theorem forum_commit_precedes_notify :
    forum_monitor_trace [] "f1" [⟨"t1", "T", "au", "u", "d"⟩]
      = [Ev.fetch, Ev.detect, Ev.commit, Ev.notifyAttempt]
    ∧ List.indexOf Ev.commit (forum_monitor_trace [] "f1" [⟨"t1", "T", "au", "u", "d"⟩])
        < List.indexOf Ev.notifyAttempt
            (forum_monitor_trace [] "f1" [⟨"t1", "T", "au", "u", "d"⟩]) := by
  constructor
  · rfl
  · decide

/-- C9 (amended): for thread monitors the claim holds — on a successful
fetch the commit is present, and whenever a notification attempt happens it
strictly precedes the commit (which happens for every notification
outcome); for forum monitors the commit is also unconditional on a
successful fetch, but it is performed strictly before the notification
attempt. -/
theorem monitor_commit_order (st : StateMap) (thread_id forum_id : String)
    (all_posts : List PostRecord) (all_threads : List ThreadRecord)
    (hps : all_posts.isEmpty = false) (hts : all_threads.isEmpty = false) :
    (Ev.commit ∈ thread_monitor_trace st thread_id all_posts)
    ∧ (Ev.notifyAttempt ∈ thread_monitor_trace st thread_id all_posts →
        List.indexOf Ev.notifyAttempt (thread_monitor_trace st thread_id all_posts)
          < List.indexOf Ev.commit (thread_monitor_trace st thread_id all_posts))
    ∧ (Ev.commit ∈ forum_monitor_trace st forum_id all_threads)
    ∧ (Ev.notifyAttempt ∈ forum_monitor_trace st forum_id all_threads →
        List.indexOf Ev.commit (forum_monitor_trace st forum_id all_threads)
          < List.indexOf Ev.notifyAttempt (forum_monitor_trace st forum_id all_threads)) := by
  unfold thread_monitor_trace forum_monitor_trace
  rw [hps, hts]
  by_cases h1 : (get_new_posts st thread_id all_posts).isEmpty
  · by_cases h2 : (get_new_threads st forum_id all_threads).isEmpty
    · simp only [h1, h2, Bool.false_eq_true, if_false, if_true]
      refine ⟨by decide, by decide, by decide, by decide⟩
    · simp only [h1, h2, Bool.false_eq_true, if_false, if_true, if_neg h2]
      refine ⟨by decide, by decide, by decide, by decide⟩
  · by_cases h2 : (get_new_threads st forum_id all_threads).isEmpty
    · simp only [h2, Bool.false_eq_true, if_false, if_true, if_neg h1]
      refine ⟨by decide, by decide, by decide, by decide⟩
    · simp only [Bool.false_eq_true, if_false, if_neg h1, if_neg h2]
      refine ⟨by decide, by decide, by decide, by decide⟩

/-- Witness for C9 (amended): empty store, one fetched post, one fetched
thread. -/
theorem monitor_commit_order_witness :
    Ev.commit ∈ thread_monitor_trace [] "t1" [⟨"p1", "a", "c", "s", "u"⟩] :=
  (monitor_commit_order [] "t1" "f1" [⟨"p1", "a", "c", "s", "u"⟩]
    [⟨"t1", "T", "au", "u", "d"⟩] rfl rfl).1
